import Mathlib

/-!
Verification of the GLFW-based `ui` package (`internal/ui/ui_glfw.go`).

Shallow embedding conventions:
* Go `float64` values are modelled as exact rationals (`ℚ`); the spec's
  "within floating-point tolerance" equalities become exact equalities.
* Go `int(x)` conversion from `float64` truncates toward zero; it is
  modelled by `truncInt` (truncating rational-to-integer conversion).
* The mutable `userInterface` struct is modelled by the record `UIState`;
  methods with lazy-cache side effects become explicit state transformers
  returning a value paired with the updated state.
* Platform collaborators (GLFW queries: device scale, window scale, primary
  monitor video mode, current window position) are modelled by a read-only
  environment record `Env` supplied to each operation.
* Window-mutating platform operations (buffer swap, monitor attach/detach,
  window resize, title restore, the busy-poll wait for the framebuffer
  resize callback) are recorded in an effect trace (`List PlatformCall`).
* The `funcs` channel of the dispatcher is modelled only through its
  nil-ness (`funcsIsNil`), which is all `runOnMainThread` inspects before
  committing to a (blocking) channel send.
-/

/-- Platform environment: results of the GLFW queries the `ui` package
performs (`deviceScale()`, `glfwScale()`, `glfw.GetPrimaryMonitor().GetVideoMode()`,
`window.GetPos()`). -/
structure Env where
  deviceScale : ℚ
  glfwScale : ℚ
  videoWidth : Int
  videoHeight : Int
  windowPosX : Int
  windowPosY : Int
  deriving DecidableEq, Repr

/-- The mutable state of the `userInterface` struct (ui_glfw.go lines 32-48).
The window handle, title and mutex are not data-relevant to the claims; the
`funcs` channel is represented by whether it is nil. -/
structure UIState where
  width : Int
  height : Int
  scale : ℚ
  deviceScale : ℚ
  glfwScale : ℚ
  fullscreen : Bool
  fullscreenScale : ℚ
  running : Bool
  sizeChanged : Bool
  origPosX : Int
  origPosY : Int
  funcsIsNil : Bool
  deriving DecidableEq, Repr

/-- Go `int(x)` conversion of a `float64`: truncation toward zero. -/
def truncInt (q : ℚ) : Int :=
  q.num.tdiv q.den

/-- The state built by `initialize()` (lines 75-81): Go zero values except
`funcs` (freshly made, hence non-nil), `sizeChanged = true` and
`origPosX = origPosY = -1`. -/
def initState : UIState :=
  { width := 0, height := 0, scale := 0, deviceScale := 0, glfwScale := 0,
    fullscreen := false, fullscreenScale := 0, running := false,
    sizeChanged := true, origPosX := -1, origPosY := -1, funcsIsNil := false }

/-- `userInterface.glfwSize` (lines 238-243): lazily fill `glfwScale`, then
return the window-unit size `(int(width*scale*glfwScale), int(height*scale*glfwScale))`. -/
def glfwSizeF (env : Env) (u : UIState) : (Int × Int) × UIState :=
  let u1 := if u.glfwScale = 0 then { u with glfwScale := env.glfwScale } else u
  ((truncInt ((u1.width : ℚ) * u1.scale * u1.glfwScale),
    truncInt ((u1.height : ℚ) * u1.scale * u1.glfwScale)), u1)

/-- `userInterface.getScale` (lines 245-264): the plain user scale when
windowed; when fullscreen, the cached `fullscreenScale`, computed on first
use as the smaller of `videoWidth/glfwScale/width` and
`videoHeight/glfwScale/height` (lazily filling `glfwScale` first). -/
def getScaleF (env : Env) (u : UIState) : ℚ × UIState :=
  if u.fullscreen = false then (u.scale, u)
  else if u.fullscreenScale ≠ 0 then (u.fullscreenScale, u)
  else
    let u1 := if u.glfwScale = 0 then { u with glfwScale := env.glfwScale } else u
    let sw := (env.videoWidth : ℚ) / u1.glfwScale / (u1.width : ℚ)
    let sh := (env.videoHeight : ℚ) / u1.glfwScale / (u1.height : ℚ)
    let s := if sw > sh then sh else sw
    (s, { u1 with fullscreenScale := s })

/-- `userInterface.actualScreenScale` (lines 266-271): lazily fill
`deviceScale`, then return `getScale() * deviceScale`. -/
def actualScreenScaleF (env : Env) (u : UIState) : ℚ × UIState :=
  let u1 := if u.deviceScale = 0 then { u with deviceScale := env.deviceScale } else u
  let p := getScaleF env u1
  (p.1 * u1.deviceScale, p.2)

/-- Window-mutating platform operations performed by `setScreenSize`,
in program order.  `waitFramebufferResize` stands for registering the
one-shot framebuffer-size callback and busy-polling events until it fires. -/
inductive PlatformCall where
  | swapBuffers
  | getPos
  | setMonitorFull (w h : Int)
  | setMonitorWindowed (x y : Int)
  | setSize (w h : Int)
  | waitFramebufferResize
  | setTitle
  deriving DecidableEq, Repr

/-- `userInterface.setScreenSize` (lines 350-417).  Returns the `changed`
flag, the updated state, and the trace of window-mutating platform calls. -/
def setScreenSizeF (env : Env) (u : UIState) (width height : Int) (scale : ℚ)
    (fullscreen : Bool) : Bool × UIState × List PlatformCall :=
  if u.width = width ∧ u.height = height ∧ u.scale = scale ∧ u.fullscreen = fullscreen then
    (false, u, [])
  else
    let origScale := u.scale
    let u1 := { u with scale := scale }
    let p := actualScreenScaleF env u1
    let u2 := p.2
    if truncInt ((width : ℚ) * p.1) < 252 then
      (false, { u2 with scale := origScale }, [])
    else
      let u3 := if u2.width ≠ width ∨ u2.height ≠ height then
          { u2 with width := width, height := height, fullscreenScale := 0 } else u2
      let u4 := { u3 with fullscreen := fullscreen }
      if fullscreen then
        let u5 := if u4.origPosX < 0 ∧ u4.origPosY < 0 then
            { u4 with origPosX := env.windowPosX, origPosY := env.windowPosY } else u4
        (true, { u5 with sizeChanged := true },
          [PlatformCall.swapBuffers] ++
          (if u4.origPosX < 0 ∧ u4.origPosY < 0 then [PlatformCall.getPos] else []) ++
          [PlatformCall.setMonitorFull env.videoWidth env.videoHeight])
      else
        let u5 := if u4.origPosX ≥ 0 ∧ u4.origPosY ≥ 0 then
            { u4 with origPosX := -1, origPosY := -1 } else u4
        let q := glfwSizeF env u5
        (true, { q.2 with sizeChanged := true },
          [PlatformCall.swapBuffers] ++
          (if u4.origPosX ≥ 0 ∧ u4.origPosY ≥ 0 then
            [PlatformCall.setMonitorWindowed u4.origPosX u4.origPosY] else []) ++
          [PlatformCall.setSize q.1.1 q.1.2, PlatformCall.waitFramebufferResize,
           PlatformCall.setTitle])

/-- The window scale that is in effect after the lazy fill in
`glfwSize`/`getScale`: the cached value, or the platform query result when
the cache is unset. -/
def wsEff (env : Env) (u : UIState) : ℚ :=
  if u.glfwScale = 0 then env.glfwScale else u.glfwScale

/-- The device scale in effect after the lazy fill in `actualScreenScale`. -/
def dsEff (env : Env) (u : UIState) : ℚ :=
  if u.deviceScale = 0 then env.deviceScale else u.deviceScale

/-- Result of a public API call: `aborts` models the
`panic("ui: Run is not called yet")` path. -/
inductive CallResult (α : Type) where
  | aborts
  | returns (a : α) (u : UIState)
  deriving DecidableEq, Repr

/-- `SetScreenSize` (lines 132-143): panic when not running; otherwise
dispatch `setScreenSize(width, height, u.scale, u.fullscreen)` (a dispatch
to a nil queue leaves `r` at its zero value `false`). -/
def SetScreenSizeCall (env : Env) (u : UIState) (width height : Int) : CallResult Bool :=
  if u.running = false then CallResult.aborts
  else if u.funcsIsNil then CallResult.returns false u
  else
    let r := setScreenSizeF env u width height u.scale u.fullscreen
    CallResult.returns r.1 r.2.1

/-- `SetScreenScale` (lines 145-156). -/
def SetScreenScaleCall (env : Env) (u : UIState) (scale : ℚ) : CallResult Bool :=
  if u.running = false then CallResult.aborts
  else if u.funcsIsNil then CallResult.returns false u
  else
    let r := setScreenSizeF env u u.width u.height scale u.fullscreen
    CallResult.returns r.1 r.2.1

/-- `SetFullscreen` (lines 158-169). -/
def SetFullscreenCall (env : Env) (u : UIState) (fullscreen : Bool) : CallResult Bool :=
  if u.running = false then CallResult.aborts
  else if u.funcsIsNil then CallResult.returns false u
  else
    let r := setScreenSizeF env u u.width u.height u.scale fullscreen
    CallResult.returns r.1 r.2.1

/-- `ScreenScale` (lines 171-182): `0` when not running; otherwise the
dispatched read of the plain `scale` field (`0` if the dispatch no-ops on a
nil queue). -/
def ScreenScaleCall (u : UIState) : ℚ :=
  if u.running = false then 0
  else if u.funcsIsNil then 0
  else u.scale

/-- The guard of `runOnMainThread` (lines 117-121): it returns immediately
(silent no-op) exactly when the `funcs` channel is nil; otherwise it
commits to a blocking send on `funcs`. -/
def runOnMainThreadReturnsImmediately (u : UIState) : Bool :=
  u.funcsIsNil

/-- Single mutations of the `userInterface` state performed anywhere in
ui_glfw.go after `initialize()`: `setRunning` (RunMainThreadLoop entry and
deferred exit), the dispatched `setScreenSize`, the lazy cache fills of
`glfwSize` / `getScale` / `actualScreenScale` (called from `Run`,
`pollEvents` and `update`), and `update`'s consumption of `sizeChanged`.
No operation in the file ever writes the `funcs` field after `initialize`. -/
inductive ProgStep : UIState → UIState → Prop where
  | setRunning (b : Bool) (u : UIState) : ProgStep u { u with running := b }
  | screenSize (env : Env) (w h : Int) (s : ℚ) (f : Bool) (u : UIState) :
      ProgStep u (setScreenSizeF env u w h s f).2.1
  | glfwSizeQ (env : Env) (u : UIState) : ProgStep u (glfwSizeF env u).2
  | getScaleQ (env : Env) (u : UIState) : ProgStep u (getScaleF env u).2
  | actualScaleQ (env : Env) (u : UIState) : ProgStep u (actualScreenScaleF env u).2
  | consumeSize (u : UIState) : ProgStep u { u with sizeChanged := false }

/-- States reachable from the freshly initialized state by the program's
own state mutations. -/
inductive ProgReachable : UIState → Prop where
  | init : ProgReachable initState
  | step {u v : UIState} : ProgReachable u → ProgStep u v → ProgReachable v

/-- States reachable from the initialized state by `setScreenSize`
transitions alone (arbitrary platform environments at each step). -/
inductive Reachable : UIState → Prop where
  | init : Reachable initState
  | step (env : Env) (w h : Int) (s : ℚ) (f : Bool) {u : UIState} :
      Reachable u → Reachable (setScreenSizeF env u w h s f).2.1

/-- States reachable by `setScreenSize` transitions in which every
platform-reported window position has nonnegative coordinates. -/
inductive ReachableNN : UIState → Prop where
  | init : ReachableNN initState
  | step (env : Env) (w h : Int) (s : ℚ) (f : Bool) {u : UIState} :
      0 ≤ env.windowPosX → 0 ≤ env.windowPosY →
      ReachableNN u → ReachableNN (setScreenSizeF env u w h s f).2.1

/-- The strengthened `origPos`/`fullscreen` invariant: in fullscreen mode the
remembered position is componentwise nonnegative, and in windowed mode it is
exactly the `(-1, -1)` sentinel. -/
def OrigPosInv (u : UIState) : Prop :=
  (u.fullscreen = true → 0 ≤ u.origPosX ∧ 0 ≤ u.origPosY) ∧
  (u.fullscreen = false → u.origPosX = -1 ∧ u.origPosY = -1)

/-- High-density environment: device scale 2, window scale 1, a 1920x1080
primary monitor, window at the origin. -/
def envHiDPI : Env :=
  { deviceScale := 2, glfwScale := 1, videoWidth := 1920, videoHeight := 1080,
    windowPosX := 0, windowPosY := 0 }

/-- A fullscreen 640x480 state at user scale 1 with all caches unset. -/
def stFS640 : UIState :=
  { initState with width := 640, height := 480, scale := 1, fullscreen := true }

/-- Environment whose window-position query reports a negative x
coordinate (window partly on a monitor left of the primary one). -/
def envNegPos : Env :=
  { deviceScale := 1, glfwScale := 1, videoWidth := 1920, videoHeight := 1080,
    windowPosX := -5, windowPosY := 3 }

/-- `envNegPos` after the window moved to the origin. -/
def envZeroPos : Env :=
  { envNegPos with windowPosX := 0, windowPosY := 0 }

/-- State after entering fullscreen from `initState` while the window sat at
`(-5, 3)`: the sign-test guard stores nothing is false — it stores the
position, leaving `origPos = (-5, 3)`. -/
def uB1 : UIState := (setScreenSizeF envNegPos initState 640 480 1 true).2.1

/-- `uB1` after leaving fullscreen: the restore guard `origPosX >= 0 &&
origPosY >= 0` fails on `(-5, 3)`, so the remembered position survives into
the windowed state. -/
def uB2 : UIState := (setScreenSizeF envZeroPos uB1 640 480 1 false).2.1

/-- Environment whose window-position query reports both coordinates
negative. -/
def envNegNegPos : Env :=
  { envNegPos with windowPosX := -5, windowPosY := -7 }

/-- State after entering fullscreen from `initState` while the window sat at
`(-5, -7)`: `origPos` remembers `(-5, -7)`. -/
def uFS1 : UIState := (setScreenSizeF envNegNegPos initState 640 480 1 true).2.1

/-- `uFS1` after a second fullscreen-on request (scale changed to 2): the
remember guard `origPosX < 0 && origPosY < 0` fires again and overwrites
the remembered position with the current one, `(0, 0)`. -/
def uFS2 : UIState := (setScreenSizeF envZeroPos uFS1 640 480 2 true).2.1

/-- A windowed 100x100 state with caches already populated
(`deviceScale = 3`, `glfwScale = 2`, `fullscreenScale = 5`). -/
def uCached : UIState :=
  { initState with
    width := 100, height := 100, scale := 1, deviceScale := 3,
    glfwScale := 2, fullscreenScale := 5, running := true, sizeChanged := false }

/-- Environment matching the caches of `uCached`. -/
def envCached : Env :=
  { deviceScale := 3, glfwScale := 2, videoWidth := 1920, videoHeight := 1080,
    windowPosX := 0, windowPosY := 0 }

/-- `uCached` after a successful resize to 200x150. -/
def uResized : UIState := (setScreenSizeF envCached uCached 200 150 1 false).2.1

/-- A windowed 100x100 state at user scale 1 with no cached device scale. -/
def uNoDev : UIState :=
  { initState with width := 100, height := 100, scale := 1, running := true }

/-- A fullscreen 1000x1000 state with all caches unset. -/
def uFSNoCaches : UIState :=
  { initState with
    width := 1000, height := 1000, scale := 1, fullscreen := true,
    running := true }

/-- Environment with a small 800x600 monitor and window scale 4. -/
def envSmallMon : Env :=
  { deviceScale := 1, glfwScale := 4, videoWidth := 800, videoHeight := 600,
    windowPosX := 0, windowPosY := 0 }

/-- The state reached by starting and then ending the main loop
(`RunMainThreadLoop` sets `running` on entry and clears it in its deferred
handler); the `funcs` channel is untouched. -/
def postLoopState : UIState :=
  { { initState with running := true } with running := false }

/-- A running fullscreen 640x480 state whose cached fullscreen-fit scale (5)
differs from the user scale (1). -/
def uRunFS : UIState :=
  { stFS640 with running := true, fullscreenScale := 5 }

/-! Field-preservation lemmas: which `userInterface` fields each lazy-cache
operation leaves untouched. -/

@[simp] theorem getScaleF_width (env : Env) (u : UIState) :
    (getScaleF env u).2.width = u.width := by
  simp only [getScaleF]; split_ifs <;> rfl

@[simp] theorem getScaleF_height (env : Env) (u : UIState) :
    (getScaleF env u).2.height = u.height := by
  simp only [getScaleF]; split_ifs <;> rfl

@[simp] theorem getScaleF_scale (env : Env) (u : UIState) :
    (getScaleF env u).2.scale = u.scale := by
  simp only [getScaleF]; split_ifs <;> rfl

@[simp] theorem getScaleF_deviceScale (env : Env) (u : UIState) :
    (getScaleF env u).2.deviceScale = u.deviceScale := by
  simp only [getScaleF]; split_ifs <;> rfl

@[simp] theorem getScaleF_fullscreen (env : Env) (u : UIState) :
    (getScaleF env u).2.fullscreen = u.fullscreen := by
  simp only [getScaleF]; split_ifs <;> rfl

@[simp] theorem getScaleF_running (env : Env) (u : UIState) :
    (getScaleF env u).2.running = u.running := by
  simp only [getScaleF]; split_ifs <;> rfl

@[simp] theorem getScaleF_sizeChanged (env : Env) (u : UIState) :
    (getScaleF env u).2.sizeChanged = u.sizeChanged := by
  simp only [getScaleF]; split_ifs <;> rfl

@[simp] theorem getScaleF_origPosX (env : Env) (u : UIState) :
    (getScaleF env u).2.origPosX = u.origPosX := by
  simp only [getScaleF]; split_ifs <;> rfl

@[simp] theorem getScaleF_origPosY (env : Env) (u : UIState) :
    (getScaleF env u).2.origPosY = u.origPosY := by
  simp only [getScaleF]; split_ifs <;> rfl

@[simp] theorem getScaleF_funcsIsNil (env : Env) (u : UIState) :
    (getScaleF env u).2.funcsIsNil = u.funcsIsNil := by
  simp only [getScaleF]; split_ifs <;> rfl

@[simp] theorem actualScreenScaleF_width (env : Env) (u : UIState) :
    (actualScreenScaleF env u).2.width = u.width := by
  simp only [actualScreenScaleF]; split_ifs <;> simp

@[simp] theorem actualScreenScaleF_height (env : Env) (u : UIState) :
    (actualScreenScaleF env u).2.height = u.height := by
  simp only [actualScreenScaleF]; split_ifs <;> simp

@[simp] theorem actualScreenScaleF_scale (env : Env) (u : UIState) :
    (actualScreenScaleF env u).2.scale = u.scale := by
  simp only [actualScreenScaleF]; split_ifs <;> simp

@[simp] theorem actualScreenScaleF_fullscreen (env : Env) (u : UIState) :
    (actualScreenScaleF env u).2.fullscreen = u.fullscreen := by
  simp only [actualScreenScaleF]; split_ifs <;> simp

@[simp] theorem actualScreenScaleF_running (env : Env) (u : UIState) :
    (actualScreenScaleF env u).2.running = u.running := by
  simp only [actualScreenScaleF]; split_ifs <;> simp

@[simp] theorem actualScreenScaleF_sizeChanged (env : Env) (u : UIState) :
    (actualScreenScaleF env u).2.sizeChanged = u.sizeChanged := by
  simp only [actualScreenScaleF]; split_ifs <;> simp

@[simp] theorem actualScreenScaleF_origPosX (env : Env) (u : UIState) :
    (actualScreenScaleF env u).2.origPosX = u.origPosX := by
  simp only [actualScreenScaleF]; split_ifs <;> simp

@[simp] theorem actualScreenScaleF_origPosY (env : Env) (u : UIState) :
    (actualScreenScaleF env u).2.origPosY = u.origPosY := by
  simp only [actualScreenScaleF]; split_ifs <;> simp

@[simp] theorem actualScreenScaleF_funcsIsNil (env : Env) (u : UIState) :
    (actualScreenScaleF env u).2.funcsIsNil = u.funcsIsNil := by
  simp only [actualScreenScaleF]; split_ifs <;> simp

@[simp] theorem actualScreenScaleF_deviceScale (env : Env) (u : UIState) :
    (actualScreenScaleF env u).2.deviceScale = dsEff env u := by
  simp only [actualScreenScaleF, dsEff]; split_ifs <;> simp

@[simp] theorem glfwSizeF_width (env : Env) (u : UIState) :
    (glfwSizeF env u).2.width = u.width := by
  simp only [glfwSizeF]; split_ifs <;> rfl

@[simp] theorem glfwSizeF_height (env : Env) (u : UIState) :
    (glfwSizeF env u).2.height = u.height := by
  simp only [glfwSizeF]; split_ifs <;> rfl

@[simp] theorem glfwSizeF_scale (env : Env) (u : UIState) :
    (glfwSizeF env u).2.scale = u.scale := by
  simp only [glfwSizeF]; split_ifs <;> rfl

@[simp] theorem glfwSizeF_deviceScale (env : Env) (u : UIState) :
    (glfwSizeF env u).2.deviceScale = u.deviceScale := by
  simp only [glfwSizeF]; split_ifs <;> rfl

@[simp] theorem glfwSizeF_fullscreen (env : Env) (u : UIState) :
    (glfwSizeF env u).2.fullscreen = u.fullscreen := by
  simp only [glfwSizeF]; split_ifs <;> rfl

@[simp] theorem glfwSizeF_fullscreenScale (env : Env) (u : UIState) :
    (glfwSizeF env u).2.fullscreenScale = u.fullscreenScale := by
  simp only [glfwSizeF]; split_ifs <;> rfl

@[simp] theorem glfwSizeF_running (env : Env) (u : UIState) :
    (glfwSizeF env u).2.running = u.running := by
  simp only [glfwSizeF]; split_ifs <;> rfl

@[simp] theorem glfwSizeF_sizeChanged (env : Env) (u : UIState) :
    (glfwSizeF env u).2.sizeChanged = u.sizeChanged := by
  simp only [glfwSizeF]; split_ifs <;> rfl

@[simp] theorem glfwSizeF_origPosX (env : Env) (u : UIState) :
    (glfwSizeF env u).2.origPosX = u.origPosX := by
  simp only [glfwSizeF]; split_ifs <;> rfl

@[simp] theorem glfwSizeF_origPosY (env : Env) (u : UIState) :
    (glfwSizeF env u).2.origPosY = u.origPosY := by
  simp only [glfwSizeF]; split_ifs <;> rfl

@[simp] theorem glfwSizeF_funcsIsNil (env : Env) (u : UIState) :
    (glfwSizeF env u).2.funcsIsNil = u.funcsIsNil := by
  simp only [glfwSizeF]; split_ifs <;> rfl

@[simp] theorem glfwSizeF_glfwScale (env : Env) (u : UIState) :
    (glfwSizeF env u).2.glfwScale = wsEff env u := by
  simp only [glfwSizeF, wsEff]; split_ifs <;> rfl

@[simp] theorem setScreenSizeF_funcsIsNil (env : Env) (u : UIState) (w h : Int) (s : ℚ)
    (f : Bool) : (setScreenSizeF env u w h s f).2.1.funcsIsNil = u.funcsIsNil := by
  simp only [setScreenSizeF]; split_ifs <;> simp

@[simp] theorem setScreenSizeF_running (env : Env) (u : UIState) (w h : Int) (s : ℚ)
    (f : Bool) : (setScreenSizeF env u w h s f).2.1.running = u.running := by
  simp only [setScreenSizeF]; split_ifs <;> simp

/-! Conditional cache-preservation lemmas: a cache that is already set is
never overwritten by a lazy fill. -/

theorem getScaleF_glfwScale_of_ne (env : Env) (u : UIState) (hg : u.glfwScale ≠ 0) :
    (getScaleF env u).2.glfwScale = u.glfwScale := by
  simp only [getScaleF]; split_ifs <;> simp_all

theorem getScaleF_fullscreenScale_of_ne (env : Env) (u : UIState)
    (hq : u.fullscreenScale ≠ 0) :
    (getScaleF env u).2.fullscreenScale = u.fullscreenScale := by
  simp only [getScaleF]; split_ifs <;> simp_all

theorem actualScreenScaleF_glfwScale_of_ne (env : Env) (u : UIState) (hg : u.glfwScale ≠ 0) :
    (actualScreenScaleF env u).2.glfwScale = u.glfwScale := by
  simp only [actualScreenScaleF]
  split_ifs with hd
  · rw [getScaleF_glfwScale_of_ne]
    exact hg
  · rw [getScaleF_glfwScale_of_ne _ _ hg]

theorem actualScreenScaleF_fullscreenScale_of_ne (env : Env) (u : UIState)
    (hq : u.fullscreenScale ≠ 0) :
    (actualScreenScaleF env u).2.fullscreenScale = u.fullscreenScale := by
  simp only [actualScreenScaleF]
  split_ifs with hd
  · rw [getScaleF_fullscreenScale_of_ne]
    exact hq
  · rw [getScaleF_fullscreenScale_of_ne _ _ hq]

/-- Algebraic identity behind the fullscreen-fit scale: the branch-computed
smaller of `vw/ws/w` and `vh/ws/h` equals `min(vw, vh*(w/h)) / ws / w`. -/
theorem fit_min_eq (vw vh w h ws : ℚ) (hw : 0 < w) (hh : 0 < h) (hws : 0 < ws) :
    (if vw / ws / w > vh / ws / h then vh / ws / h else vw / ws / w) =
      min vw (vh * (w / h)) / ws / w := by
  have hh0 : h ≠ 0 := ne_of_gt hh
  have hws0 : ws ≠ 0 := ne_of_gt hws
  have hw0 : w ≠ 0 := ne_of_gt hw
  have h1 : min vw (vh * (w / h)) / ws / w =
      min (vw / ws / w) ((vh * (w / h)) / ws / w) := by
    rw [div_div, div_div, div_div, ← min_div_div_right (le_of_lt (mul_pos hws hw))]
  have h2 : (vh * (w / h)) / ws / w = vh / ws / h := by
    field_simp
    ring
  rw [h1, h2]
  rcases le_or_lt (vw / ws / w) (vh / ws / h) with hle | hlt
  · rw [min_eq_left hle, if_neg (not_lt.mpr hle)]
  · rw [min_eq_right (le_of_lt hlt), if_pos hlt]

/-- Freshly computed fullscreen-fit scale, in the closed `min` form. -/
theorem getScaleF_fresh_value (env : Env) (u : UIState) (hf : u.fullscreen = true)
    (hq : u.fullscreenScale = 0) (hw : 0 < u.width) (hh : 0 < u.height)
    (hws : 0 < wsEff env u) :
    (getScaleF env u).1 =
      min ((env.videoWidth : ℚ)) ((env.videoHeight : ℚ) * ((u.width : ℚ) / (u.height : ℚ))) /
        wsEff env u / (u.width : ℚ) := by
  have hw' : (0:ℚ) < (u.width : ℚ) := by exact_mod_cast hw
  have hh' : (0:ℚ) < (u.height : ℚ) := by exact_mod_cast hh
  by_cases hg : u.glfwScale = 0
  · have hws' : 0 < env.glfwScale := by simpa [wsEff, hg] using hws
    simp only [getScaleF, hf, hq, wsEff, hg]
    simp only [if_true, ne_eq, not_true_eq_false, if_false]
    exact fit_min_eq _ _ _ _ _ hw' hh' hws'
  · have hws' : 0 < u.glfwScale := by simpa [wsEff, hg] using hws
    simp only [getScaleF, hf, hq, wsEff, hg]
    simp only [if_true, ne_eq, not_true_eq_false, if_false]
    exact fit_min_eq _ _ _ _ _ hw' hh' hws'

/-- `actualScreenScale` on a fullscreen state with an unset cache. -/
theorem actualScreenScaleF_fresh_value (env : Env) (u : UIState) (hf : u.fullscreen = true)
    (hq : u.fullscreenScale = 0) (hw : 0 < u.width) (hh : 0 < u.height)
    (hws : 0 < wsEff env u) :
    (actualScreenScaleF env u).1 =
      dsEff env u *
        (min ((env.videoWidth : ℚ)) ((env.videoHeight : ℚ) * ((u.width : ℚ) / (u.height : ℚ))) /
          wsEff env u / (u.width : ℚ)) := by
  simp only [actualScreenScaleF]
  split_ifs with hd
  · rw [getScaleF_fresh_value env _ (by simpa using hf) (by simpa using hq)
      (by simpa using hw) (by simpa using hh) (by simpa [wsEff] using hws)]
    simp [wsEff, dsEff, hd, mul_comm]
  · rw [getScaleF_fresh_value env _ hf hq hw hh hws]
    simp [dsEff, hd, mul_comm]

/-- `actualScreenScale` on a fullscreen state with a set cache: the cached
value is used and not recomputed. -/
theorem actualScreenScaleF_cached_value (env : Env) (u : UIState) (hf : u.fullscreen = true)
    (hq : u.fullscreenScale ≠ 0) :
    (actualScreenScaleF env u).1 = u.fullscreenScale * dsEff env u := by
  simp only [actualScreenScaleF, getScaleF, dsEff]
  split_ifs <;> simp_all

/-- `setScreenSize` never clears an already-populated device-scale cache. -/
theorem setScreenSizeF_deviceScale_preserved (env : Env) (u : UIState) (w h : Int) (s : ℚ)
    (f : Bool) (hd : u.deviceScale ≠ 0) :
    (setScreenSizeF env u w h s f).2.1.deviceScale = u.deviceScale := by
  simp only [setScreenSizeF]
  split_ifs <;> simp_all [dsEff]

/-- `setScreenSize` never clears an already-populated window-scale cache. -/
theorem setScreenSizeF_glfwScale_preserved (env : Env) (u : UIState) (w h : Int) (s : ℚ)
    (f : Bool) (hg : u.glfwScale ≠ 0) :
    (setScreenSizeF env u w h s f).2.1.glfwScale = u.glfwScale := by
  simp only [setScreenSizeF]
  split_ifs <;> simp_all [wsEff, actualScreenScaleF_glfwScale_of_ne]

/-- When `setScreenSize` changes the logical width or height, the cached
fullscreen-fit scale ends up reset to its unset value `0`. -/
theorem setScreenSizeF_fullscreenScale_reset (env : Env) (u : UIState) (w h : Int) (s : ℚ)
    (f : Bool)
    (hch : (setScreenSizeF env u w h s f).2.1.width ≠ u.width ∨
      (setScreenSizeF env u w h s f).2.1.height ≠ u.height) :
    (setScreenSizeF env u w h s f).2.1.fullscreenScale = 0 := by
  simp only [setScreenSizeF] at hch ⊢
  split_ifs at hch ⊢ <;> simp_all

/-- One `setScreenSize` transition preserves `OrigPosInv` whenever the
platform reports a nonnegative window position. -/
theorem setScreenSizeF_origPosInv (env : Env) (u : UIState) (w h : Int) (s : ℚ) (f : Bool)
    (hx : 0 ≤ env.windowPosX) (hy : 0 ≤ env.windowPosY) (hI : OrigPosInv u) :
    OrigPosInv (setScreenSizeF env u w h s f).2.1 := by
  obtain ⟨hT, hF⟩ := hI
  unfold OrigPosInv
  rcases Bool.eq_false_or_eq_true u.fullscreen with huf | huf
  · replace hT := hT huf
    simp only [setScreenSizeF]
    split_ifs <;> simp_all
  · replace hF := hF huf
    simp only [setScreenSizeF]
    split_ifs <;> simp_all

/-- Every state reachable through position-respecting `setScreenSize`
transitions satisfies `OrigPosInv`. -/
theorem reachableNN_origPosInv (u : UIState) (hr : ReachableNN u) : OrigPosInv u := by
  induction hr with
  | init => exact ⟨fun hc => by simp [initState] at hc, fun _ => by decide⟩
  | step env w h s f hx hy _ ih => exact setScreenSizeF_origPosInv env _ w h s f hx hy ih

/-- No operation of the file ever makes the `funcs` channel nil. -/
theorem progReachable_funcs_nonNil (u : UIState) (hr : ProgReachable u) :
    u.funcsIsNil = false := by
  induction hr with
  | init => rfl
  | step _ hstep ih => cases hstep <;> simp_all

/-! Claim theorems. -/

unseal Rat.mul Rat.inv Rat.add Rat.sub in
/-- Claim C1, counterexample: on a fullscreen 640x480 state with device
scale 2 (and window scale 1, 1920x1080 monitor), `actualScreenScale()`
returns `9/2`, while the claimed formula
`min(displayWidth, displayHeight * (width/height)) / windowScale / width`
gives `9/4`: the claim omits the `deviceScale` factor. -/
theorem actualScreenScale_fullscreen_formula_cex :
    stFS640.fullscreen = true ∧ stFS640.fullscreenScale = 0 ∧
    (actualScreenScaleF envHiDPI stFS640).1 = 9 / 2 ∧
    min ((envHiDPI.videoWidth : ℚ))
        ((envHiDPI.videoHeight : ℚ) * ((stFS640.width : ℚ) / (stFS640.height : ℚ))) /
      wsEff envHiDPI stFS640 / (stFS640.width : ℚ) = 9 / 4 ∧
    (actualScreenScaleF envHiDPI stFS640).1 ≠
      min ((envHiDPI.videoWidth : ℚ))
        ((envHiDPI.videoHeight : ℚ) * ((stFS640.width : ℚ) / (stFS640.height : ℚ))) /
      wsEff envHiDPI stFS640 / (stFS640.width : ℚ) := by
  decide

/-- Claim C1 (amended): while fullscreen, `actualScreenScale()` equals
`deviceScale * (min(displayWidth, displayHeight * (width/height)) / windowScale / width)`
(with the lazily-filled effective device and window scales); when it is
freshly computed the cache was unset, when the cache is set it is returned
unchanged (not recomputed); and any `setScreenSize` that changes width or
height resets the cache to unset, forcing recomputation at the next read. -/
theorem actualScreenScale_fullscreen_formula_amended (env : Env) (u : UIState) (w h : Int)
    (s : ℚ) (f : Bool) (hf : u.fullscreen = true) (hw : 0 < u.width) (hh : 0 < u.height)
    (hws : 0 < wsEff env u) :
    (u.fullscreenScale = 0 →
      (actualScreenScaleF env u).1 =
        dsEff env u *
          (min ((env.videoWidth : ℚ))
              ((env.videoHeight : ℚ) * ((u.width : ℚ) / (u.height : ℚ))) /
            wsEff env u / (u.width : ℚ))) ∧
    (u.fullscreenScale ≠ 0 →
      (actualScreenScaleF env u).1 = u.fullscreenScale * dsEff env u ∧
      (actualScreenScaleF env u).2.fullscreenScale = u.fullscreenScale) ∧
    ((setScreenSizeF env u w h s f).2.1.width ≠ u.width ∨
      (setScreenSizeF env u w h s f).2.1.height ≠ u.height →
      (setScreenSizeF env u w h s f).2.1.fullscreenScale = 0) :=
  ⟨fun hq => actualScreenScaleF_fresh_value env u hf hq hw hh hws,
   fun hq => ⟨actualScreenScaleF_cached_value env u hf hq,
     actualScreenScaleF_fullscreenScale_of_ne env u hq⟩,
   fun hch => setScreenSizeF_fullscreenScale_reset env u w h s f hch⟩

unseal Rat.mul Rat.inv Rat.add Rat.sub in
/-- Claim C1 witness: the amended formula evaluated on the concrete
fullscreen 640x480 state under `envHiDPI`. -/
theorem actualScreenScale_fullscreen_formula_amended_witness :
    stFS640.fullscreen = true ∧ 0 < stFS640.width ∧ 0 < stFS640.height ∧
    0 < wsEff envHiDPI stFS640 ∧ stFS640.fullscreenScale = 0 ∧
    (actualScreenScaleF envHiDPI stFS640).1 =
      dsEff envHiDPI stFS640 *
        (min ((envHiDPI.videoWidth : ℚ))
            ((envHiDPI.videoHeight : ℚ) * ((stFS640.width : ℚ) / (stFS640.height : ℚ))) /
          wsEff envHiDPI stFS640 / (stFS640.width : ℚ)) :=
  ⟨rfl, by decide, by decide, by decide, rfl,
   (actualScreenScale_fullscreen_formula_amended envHiDPI stFS640 640 480 1 true rfl
     (by decide) (by decide) (by decide)).1 rfl⟩

unseal Rat.mul Rat.inv Rat.add Rat.sub in
/-- Claim C2, counterexample: resizing `uCached` (populated caches
`deviceScale = 3`, `glfwScale = 2`) from 100x100 to 200x150 changes the
width, resets `fullscreenScale` to 0, but leaves `deviceScale = 3` and
`glfwScale = 2` — the claim that all three caches are reset to zero is
false for `deviceScale` and `glfwScale`. -/
theorem cache_invalidation_on_resize_cex :
    uResized = (setScreenSizeF envCached uCached 200 150 1 false).2.1 ∧
    (uResized.width ≠ uCached.width ∨ uResized.height ≠ uCached.height) ∧
    uResized.fullscreenScale = 0 ∧
    uResized.deviceScale = 3 ∧ uResized.glfwScale = 2 ∧
    uResized.deviceScale ≠ 0 ∧ uResized.glfwScale ≠ 0 := by
  refine ⟨rfl, by decide, by decide, by decide, by decide, by decide, by decide⟩

/-- Claim C2 (amended): when `setScreenSize` changes the logical width or
height, only the cached `fullscreenScale` is reset to its unset value;
the cached `deviceScale` and `glfwScale` are never reset — once populated
they keep their values (they are filled lazily at first read only). -/
theorem cache_invalidation_on_resize_amended (env : Env) (u : UIState) (w h : Int) (s : ℚ)
    (f : Bool)
    (hch : (setScreenSizeF env u w h s f).2.1.width ≠ u.width ∨
      (setScreenSizeF env u w h s f).2.1.height ≠ u.height) :
    (setScreenSizeF env u w h s f).2.1.fullscreenScale = 0 ∧
    (u.deviceScale ≠ 0 → (setScreenSizeF env u w h s f).2.1.deviceScale = u.deviceScale) ∧
    (u.glfwScale ≠ 0 → (setScreenSizeF env u w h s f).2.1.glfwScale = u.glfwScale) :=
  ⟨setScreenSizeF_fullscreenScale_reset env u w h s f hch,
   fun hd => setScreenSizeF_deviceScale_preserved env u w h s f hd,
   fun hg => setScreenSizeF_glfwScale_preserved env u w h s f hg⟩

unseal Rat.mul Rat.inv Rat.add Rat.sub in
/-- Claim C2 witness: the amended statement at the concrete resize of
`uCached` to 200x150. -/
theorem cache_invalidation_on_resize_amended_witness :
    ((setScreenSizeF envCached uCached 200 150 1 false).2.1.width ≠ uCached.width ∨
      (setScreenSizeF envCached uCached 200 150 1 false).2.1.height ≠ uCached.height) ∧
    (setScreenSizeF envCached uCached 200 150 1 false).2.1.fullscreenScale = 0 ∧
    (setScreenSizeF envCached uCached 200 150 1 false).2.1.deviceScale = uCached.deviceScale :=
  ⟨by decide,
   (cache_invalidation_on_resize_amended envCached uCached 200 150 1 false (by decide)).1,
   (cache_invalidation_on_resize_amended envCached uCached 200 150 1 false (by decide)).2.1
     (by decide)⟩

/-- Claim C3 (code bug): the spec says a `runOnMainThread` submission after
the dispatcher shuts down returns immediately with no error and no effect,
via the `funcs == nil` early return.  But no operation of the file ever
sets `funcs` to nil — in particular ending the main loop only clears
`running` — so in every reachable post-loop state the early return is not
taken and the call proceeds to a channel send that blocks forever (the
loop no longer receives). -/
theorem runOnMainThread_no_silent_noop_after_loop (u : UIState) (hr : ProgReachable u)
    (hdone : u.running = false) :
    runOnMainThreadReturnsImmediately u = false := by
  have hnil := progReachable_funcs_nonNil u hr
  simpa [runOnMainThreadReturnsImmediately] using hnil

/-- Claim C3 witness: the concrete state reached by starting and ending the
main loop; a late submission there does not take the silent no-op path. -/
theorem runOnMainThread_no_silent_noop_after_loop_witness :
    ProgReachable postLoopState ∧ postLoopState.running = false ∧
    runOnMainThreadReturnsImmediately postLoopState = false :=
  have h : ProgReachable postLoopState :=
    ProgReachable.step
      (ProgReachable.step ProgReachable.init (ProgStep.setRunning true initState))
      (ProgStep.setRunning false { initState with running := true })
  ⟨h, rfl, runOnMainThread_no_silent_noop_after_loop postLoopState h rfl⟩

unseal Rat.mul Rat.inv Rat.add Rat.sub in
/-- Claim C4, counterexample: with the window at `(-5, 3)` (a negative x
coordinate, as happens on a monitor left of the primary), entering and then
leaving fullscreen reaches a windowed state whose `origPos` is `(-5, 3)`,
not the `(-1, -1)` sentinel: `origPos` is "set" while `fullscreen` is
false, refuting the claimed equivalence.  (On entering fullscreen the
remember guard `origPosX < 0 && origPosY < 0` stored `(-5, 3)`; on leaving,
the restore guard `origPosX >= 0 && origPosY >= 0` failed to clear it.) -/
theorem origPos_iff_fullscreen_cex :
    Reachable uB2 ∧ uB2.fullscreen = false ∧
    ¬(uB2.origPosX = -1 ∧ uB2.origPosY = -1) := by
  refine ⟨?_, by decide, by decide⟩
  have h1 : Reachable uB1 := Reachable.step envNegPos 640 480 1 true Reachable.init
  exact Reachable.step envZeroPos 640 480 1 false h1

/-- Claim C4 (amended): in every state reachable by `setScreenSize`
transitions in which the platform-reported window position always has
nonnegative coordinates, `origPos` differs from the `(-1, -1)` sentinel
exactly when the window is fullscreen. -/
theorem origPos_iff_fullscreen_amended (u : UIState) (hr : ReachableNN u) :
    (¬(u.origPosX = -1 ∧ u.origPosY = -1)) ↔ u.fullscreen = true := by
  obtain ⟨hT, hF⟩ := reachableNN_origPosInv u hr
  rcases Bool.eq_false_or_eq_true u.fullscreen with huf | huf
  · obtain ⟨hx, hy⟩ := hT huf
    simp only [huf, iff_true]
    rintro ⟨hcx, hcy⟩
    omega
  · obtain ⟨hx, hy⟩ := hF huf
    simp [huf, hx, hy]

/-- Claim C4 witness: the equivalence at the initial state. -/
theorem origPos_iff_fullscreen_amended_witness :
    ReachableNN initState ∧
    ((¬(initState.origPosX = -1 ∧ initState.origPosY = -1)) ↔ initState.fullscreen = true) :=
  ⟨ReachableNN.init, origPos_iff_fullscreen_amended initState ReachableNN.init⟩

/-- Claim C5 (confirmed): a `setScreenSize` request whose tentative
window-unit width `int(width * actualScreenScale())` falls below the
252-pixel minimum returns `false` with `scale` rolled back exactly to its
prior value and `width`, `height`, `fullscreen`, `origPos` and
`sizeChanged` unmodified. -/
theorem setScreenSize_minWidth_rollback (env : Env) (u : UIState) (w h : Int) (s : ℚ)
    (f : Bool)
    (hg : truncInt ((w : ℚ) * (actualScreenScaleF env { u with scale := s }).1) < 252) :
    (setScreenSizeF env u w h s f).1 = false ∧
    (setScreenSizeF env u w h s f).2.1.scale = u.scale ∧
    (setScreenSizeF env u w h s f).2.1.width = u.width ∧
    (setScreenSizeF env u w h s f).2.1.height = u.height ∧
    (setScreenSizeF env u w h s f).2.1.fullscreen = u.fullscreen ∧
    (setScreenSizeF env u w h s f).2.1.origPosX = u.origPosX ∧
    (setScreenSizeF env u w h s f).2.1.origPosY = u.origPosY ∧
    (setScreenSizeF env u w h s f).2.1.sizeChanged = u.sizeChanged := by
  by_cases heq : u.width = w ∧ u.height = h ∧ u.scale = s ∧ u.fullscreen = f
  · simp [setScreenSizeF, heq]
  · simp only [setScreenSizeF, if_neg heq, if_pos hg]
    simp

unseal Rat.mul Rat.inv Rat.add Rat.sub in
/-- Claim C5 witness: a 100-wide request at effective scale 1 (50 window
units would result from scale 1/2 on a device scale 2 display) trips the
guard and rolls back. -/
theorem setScreenSize_minWidth_rollback_witness :
    truncInt (((100 : Int) : ℚ) *
        (actualScreenScaleF envHiDPI { uNoDev with scale := 1/2 }).1) < 252 ∧
    (setScreenSizeF envHiDPI uNoDev 100 100 (1/2) false).1 = false ∧
    (setScreenSizeF envHiDPI uNoDev 100 100 (1/2) false).2.1.scale = uNoDev.scale :=
  ⟨by decide,
   (setScreenSize_minWidth_rollback envHiDPI uNoDev 100 100 (1/2) false (by decide)).1,
   (setScreenSize_minWidth_rollback envHiDPI uNoDev 100 100 (1/2) false (by decide)).2.1⟩

unseal Rat.mul Rat.inv Rat.add Rat.sub in
/-- Claim C6, counterexample: `uFS1` is a reachable fullscreen state whose
remembered windowed position `(-5, -7)` is not the sentinel, yet a further
fullscreen-on request (scale change) overwrites it with the current window
position `(0, 0)`: the remember guard `origPosX < 0 && origPosY < 0`
mistakes a both-negative remembered position for "not remembered". -/
theorem fullscreen_remember_idempotent_cex :
    Reachable uFS1 ∧ uFS1.fullscreen = true ∧
    ¬(uFS1.origPosX = -1 ∧ uFS1.origPosY = -1) ∧
    uFS2 = (setScreenSizeF envZeroPos uFS1 640 480 2 true).2.1 ∧
    uFS2.origPosX ≠ uFS1.origPosX ∧ uFS2.origPosY ≠ uFS1.origPosY := by
  refine ⟨Reachable.step envNegNegPos 640 480 1 true Reachable.init,
    by decide, by decide, rfl, by decide, by decide⟩

/-- Claim C6 (amended): from a fullscreen state whose remembered windowed
position does not have both coordinates negative, any further
`setScreenSize` request with `fullscreen = true` leaves `origPos`
unchanged. -/
theorem fullscreen_remember_idempotent_amended (env : Env) (u : UIState) (w h : Int)
    (s : ℚ) (hf : u.fullscreen = true) (hnb : ¬(u.origPosX < 0 ∧ u.origPosY < 0)) :
    (setScreenSizeF env u w h s true).2.1.origPosX = u.origPosX ∧
    (setScreenSizeF env u w h s true).2.1.origPosY = u.origPosY := by
  simp only [setScreenSizeF]
  split_ifs with h1 h2 h3 h4 h5
  · simp
  · simp
  · exact absurd (by simpa using h4) hnb
  · simp
  · exact absurd (by simpa using h5) hnb
  · simp

unseal Rat.mul Rat.inv Rat.add Rat.sub in
/-- Claim C6 witness: a second fullscreen-on request from a fullscreen
state remembering `(3, 4)` keeps `origPos = (3, 4)`. -/
theorem fullscreen_remember_idempotent_amended_witness :
    ({ stFS640 with origPosX := 3, origPosY := 4 } : UIState).fullscreen = true ∧
    ¬(({ stFS640 with origPosX := 3, origPosY := 4 } : UIState).origPosX < 0 ∧
      ({ stFS640 with origPosX := 3, origPosY := 4 } : UIState).origPosY < 0) ∧
    (setScreenSizeF envHiDPI { stFS640 with origPosX := 3, origPosY := 4 }
        640 480 2 true).2.1.origPosX = 3 ∧
    (setScreenSizeF envHiDPI { stFS640 with origPosX := 3, origPosY := 4 }
        640 480 2 true).2.1.origPosY = 4 :=
  ⟨rfl, by decide,
   (fullscreen_remember_idempotent_amended envHiDPI
     { stFS640 with origPosX := 3, origPosY := 4 } 640 480 2 rfl (by decide)).1,
   (fullscreen_remember_idempotent_amended envHiDPI
     { stFS640 with origPosX := 3, origPosY := 4 } 640 480 2 rfl (by decide)).2⟩

/-- Claim C7 (confirmed): a `setScreenSize` request equal to the current
(width, height, scale, fullscreen) tuple returns `false`, leaves the state
exactly as it was, and performs no platform call. -/
theorem setScreenSize_noop_on_equal_request (env : Env) (u : UIState) (w h : Int) (s : ℚ)
    (f : Bool) (hw : u.width = w) (hh : u.height = h) (hs : u.scale = s)
    (hf : u.fullscreen = f) :
    setScreenSizeF env u w h s f = (false, u, []) := by
  simp [setScreenSizeF, hw, hh, hs, hf]

/-- Claim C7 witness: re-requesting the current 100x100, scale 1, windowed
geometry of `uCached` changes nothing. -/
theorem setScreenSize_noop_on_equal_request_witness :
    uCached.width = 100 ∧ uCached.height = 100 ∧ uCached.scale = 1 ∧
    uCached.fullscreen = false ∧
    setScreenSizeF envCached uCached 100 100 1 false = (false, uCached, []) :=
  ⟨rfl, rfl, rfl, rfl,
   setScreenSize_noop_on_equal_request envCached uCached 100 100 1 false rfl rfl rfl rfl⟩

/-- Claim C8 (confirmed): `SetScreenSize`, `SetScreenScale` and
`SetFullscreen` called while the loop is not running all take the
`panic("ui: Run is not called yet")` path instead of returning a value. -/
theorem setters_abort_when_not_running (env : Env) (u : UIState) (w h : Int) (s : ℚ)
    (f : Bool) (hr : u.running = false) :
    SetScreenSizeCall env u w h = CallResult.aborts ∧
    SetScreenScaleCall env u s = CallResult.aborts ∧
    SetFullscreenCall env u f = CallResult.aborts := by
  simp [SetScreenSizeCall, SetScreenScaleCall, SetFullscreenCall, hr]

/-- Claim C8 witness: the three setters abort on the freshly initialized,
not-yet-running state. -/
theorem setters_abort_when_not_running_witness :
    initState.running = false ∧
    SetScreenSizeCall envHiDPI initState 640 480 = CallResult.aborts ∧
    SetScreenScaleCall envHiDPI initState 2 = CallResult.aborts ∧
    SetFullscreenCall envHiDPI initState true = CallResult.aborts :=
  ⟨rfl, (setters_abort_when_not_running envHiDPI initState 640 480 2 true rfl).1,
   (setters_abort_when_not_running envHiDPI initState 640 480 2 true rfl).2.1,
   (setters_abort_when_not_running envHiDPI initState 640 480 2 true rfl).2.2⟩

/-- Claim C9 (confirmed): while running (with the live dispatch queue),
`ScreenScale()` returns the plain user `scale` field for every state,
fullscreen or not — never the fullscreen-fit scale used by
`getScale`/`actualScreenScale`. -/
theorem ScreenScale_returns_plain_scale (u : UIState) (hr : u.running = true)
    (hq : u.funcsIsNil = false) :
    ScreenScaleCall u = u.scale := by
  simp [ScreenScaleCall, hr, hq]

unseal Rat.mul Rat.inv Rat.add Rat.sub in
/-- Claim C9 witness: on a running fullscreen state with cached
fullscreen-fit scale 5 and user scale 1, `ScreenScale()` returns 1. -/
theorem ScreenScale_returns_plain_scale_witness :
    uRunFS.running = true ∧ uRunFS.funcsIsNil = false ∧ uRunFS.fullscreen = true ∧
    uRunFS.scale ≠ uRunFS.fullscreenScale ∧ ScreenScaleCall uRunFS = uRunFS.scale :=
  ⟨rfl, rfl, rfl, by decide, ScreenScale_returns_plain_scale uRunFS rfl rfl⟩

unseal Rat.mul Rat.inv Rat.add Rat.sub in
/-- Claim C10 (confirmed): a request rejected by the minimum-width guard is
not fully state-preserving.  Windowed scenario: rejecting a scale-1/2
request on `uNoDev` under device scale 2 populates the `deviceScale` cache
(0 to 2).  Fullscreen scenario: rejecting a scale-2 request on
`uFSNoCaches` under `envSmallMon` populates `deviceScale` (0 to 1),
`glfwScale` (0 to 4) and `fullscreenScale` (0 to 3/20), even though both
calls return `false`. -/
theorem setScreenSize_reject_fills_caches :
    (setScreenSizeF envHiDPI uNoDev 100 100 (1/2) false).1 = false ∧
    uNoDev.deviceScale = 0 ∧
    (setScreenSizeF envHiDPI uNoDev 100 100 (1/2) false).2.1.deviceScale = 2 ∧
    (setScreenSizeF envSmallMon uFSNoCaches 1000 1000 2 true).1 = false ∧
    uFSNoCaches.deviceScale = 0 ∧ uFSNoCaches.glfwScale = 0 ∧
    uFSNoCaches.fullscreenScale = 0 ∧
    (setScreenSizeF envSmallMon uFSNoCaches 1000 1000 2 true).2.1.deviceScale = 1 ∧
    (setScreenSizeF envSmallMon uFSNoCaches 1000 1000 2 true).2.1.glfwScale = 4 ∧
    (setScreenSizeF envSmallMon uFSNoCaches 1000 1000 2 true).2.1.fullscreenScale = 3/20 := by
  decide
